import Mathlib

/-!
Verification of the `aptl` kali MCP configuration module
(`src/red_team/kali_mcp/src/config.ts`).

The TypeScript source is shallowly embedded: JavaScript numbers appearing in
the CIDR arithmetic are modelled as `Option Int` (`none` is `NaN`; all values
arising in the claims are integers far below `2^53`, where JavaScript float
arithmetic is exact), JavaScript 32-bit operators (`<<`, `>>>`, `&`) are
modelled with their ECMAScript `ToInt32` / `ToUint32` semantics, and
`String.prototype.split` with the one-character separators used by the source
is modelled by an explicit character-list splitter.
-/

namespace Aptl

/-- ECMAScript `ToUint32` of a JavaScript number (`none` = `NaN` maps to 0). -/
def toUint32 : Option Int → Nat
  | none => 0
  | some n => (n % 4294967296).toNat

/-- Reinterpret a bit pattern (reduced mod `2^32`) as a signed 32-bit value. -/
def uint32ToInt32 (u : Nat) : Int :=
  if u % 4294967296 < 2147483648 then ((u % 4294967296 : Nat) : Int)
  else ((u % 4294967296 : Nat) : Int) - 4294967296

/-- JavaScript `a << b`: shift count is `ToUint32(b) % 32`, result signed 32-bit. -/
def jsShl (a b : Option Int) : Option Int :=
  some (uint32ToInt32 (toUint32 a * 2 ^ (toUint32 b % 32)))

/-- JavaScript `a >>> b`: zero-fill right shift, result is a non-negative number. -/
def jsUShr (a b : Option Int) : Int :=
  ((toUint32 a / 2 ^ (toUint32 b % 32) : Nat) : Int)

/-- JavaScript `a & b`: bitwise and on 32-bit patterns, result signed 32-bit. -/
def jsAnd (a b : Option Int) : Int :=
  uint32ToInt32 (Nat.land (toUint32 a) (toUint32 b))

/-- JavaScript `a + b` on numbers (`NaN` propagates; exact below `2^53`). -/
def jsAdd : Option Int → Option Int → Option Int
  | some a, some b => some (a + b)
  | _, _ => none

/-- JavaScript `a - b` on numbers (`NaN` propagates). -/
def jsSub : Option Int → Option Int → Option Int
  | some a, some b => some (a - b)
  | _, _ => none

/-- `String.prototype.split` with a one-character separator, on char lists. -/
def splitChar : List Char → Char → List (List Char)
  | [], _ => [[]]
  | c :: cs, sep =>
    if c = sep then [] :: splitChar cs sep
    else
      match splitChar cs sep with
      | [] => [[c]]
      | h :: t => (c :: h) :: t

/-- The whitespace characters skipped by `parseInt` (ASCII subset; the inputs
in this development are ASCII). -/
def jsIsSpace (c : Char) : Bool :=
  c = ' ' || c = '\t' || c = '\n' || c = '\r' || c = '\x0b' || c = '\x0c'

/-- Decimal digit test (`0`..`9`, code points 48..57). -/
def isDigitChar (c : Char) : Bool :=
  48 ≤ c.toNat && c.toNat ≤ 57

/-- Value of a list of decimal digits, most significant first. -/
def digitsVal (cs : List Char) : Nat :=
  cs.foldl (fun a c => a * 10 + (c.toNat - 48)) 0

/-- JavaScript `parseInt(s, 10)`: skip whitespace, optional sign, then the
longest prefix of decimal digits; `NaN` (= `none`) if there are none. -/
def parseIntChars (cs : List Char) : Option Int :=
  let cs1 := cs.dropWhile jsIsSpace
  let neg : Bool := cs1.headD 'x' = '-'
  let hasSign : Bool := neg || cs1.headD 'x' = '+'
  let cs2 := if hasSign then cs1.tail else cs1
  let ds := cs2.takeWhile isDigitChar
  if ds.isEmpty then none
  else if neg then some (-(digitsVal ds : Int)) else some ((digitsVal ds : Nat) : Int)

/-- `ipToNumber` from `config.ts`:
`ip.split('.').reduce((acc, octet) => (acc << 8) + parseInt(octet, 10), 0) >>> 0`. -/
def ipToNumber (ip : String) : Int :=
  jsUShr
    ((splitChar ip.data '.').foldl
      (fun acc octet => jsAdd (jsShl acc (some 8)) (parseIntChars octet)) (some 0))
    (some 0)

/-- `isIpInCidr` from `config.ts`: split on `/`, `parseInt` the prefix length
(`parseInt(undefined, 10)` is `NaN` when there is no `/`), build the mask with
JavaScript 32-bit shifts and compare the masked addresses. -/
def isIpInCidr (ip cidr : String) : Bool :=
  let parts := splitChar cidr.data '/'
  let network : String := ⟨parts.headD []⟩
  let prefixLen : Option Int :=
    match parts[1]? with
    | some ps => parseIntChars ps
    | none => none
  let ipNum := ipToNumber ip
  let networkNum := ipToNumber network
  let mask : Int := jsUShr (jsShl (some 4294967295) (jsSub (some 32) prefixLen)) (some 0)
  jsAnd (some ipNum) (some mask) == jsAnd (some networkNum) (some mask)

/-- `isTargetAllowed` from `config.ts`: true iff some CIDR in the list matches. -/
def isTargetAllowed (target : String) (allowedCidrs : List String) : Bool :=
  allowedCidrs.any (fun cidr => isIpInCidr target cidr)

/-! Specification-side vocabulary for the CIDR claims: syntactic validity of a
dotted-quad address, big-endian octet packing, and the prefix mask, written
from the specification text (not from the JavaScript arithmetic). -/

/-- A dotted-quad component: nonempty, all decimal digits, value at most 255. -/
def isOctetStr (cs : List Char) : Bool :=
  (!cs.isEmpty) && cs.all isDigitChar && decide (digitsVal cs ≤ 255)

/-- Syntactically valid IPv4 dotted-quad: exactly four octet components. -/
def validQuadChars (cs : List Char) : Bool :=
  match splitChar cs '.' with
  | [a, b, c, d] => isOctetStr a && isOctetStr b && isOctetStr c && isOctetStr d
  | _ => false

/-- Big-endian packing of a dotted quad into a 32-bit unsigned integer. -/
def specPackQuad (s : String) : Nat :=
  match splitChar s.data '.' with
  | [a, b, c, d] => ((digitsVal a * 256 + digitsVal b) * 256 + digitsVal c) * 256 + digitsVal d
  | _ => 0

/-- Mask of `p` leading one-bits in a 32-bit word. -/
def specMask (p : Nat) : Nat := (2 ^ p - 1) * 2 ^ (32 - p)

/-- A valid dotted-quad CIDR whose prefix length is between 1 and 32. -/
def validCidrChars (cs : List Char) : Bool :=
  match splitChar cs '/' with
  | [net, ps] =>
      validQuadChars net && ((!ps.isEmpty) && ps.all isDigitChar) &&
      decide (1 ≤ digitsVal ps) && decide (digitsVal ps ≤ 32)
  | _ => false

/-- The specification's per-range membership relation:
`(targetInt & mask) == (networkInt & mask)` over packed 32-bit integers. -/
def specCidrMatch (target r : String) : Bool :=
  match splitChar r.data '/' with
  | [net, ps] =>
      Nat.land (specPackQuad target) (specMask (digitsVal ps)) ==
      Nat.land (specPackQuad ⟨net⟩) (specMask (digitsVal ps))
  | _ => false

/-! Arithmetic lemmas relating the JavaScript 32-bit evaluation to the
specification-side packing and mask. -/

lemma digit_not_space {c : Char} (h : isDigitChar c = true) : jsIsSpace c = false := by
  unfold isDigitChar at h
  unfold jsIsSpace
  simp only [Bool.and_eq_true, decide_eq_true_eq] at h
  simp only [Bool.or_eq_false_iff, decide_eq_false_iff_not]
  refine ⟨⟨⟨⟨⟨?_, ?_⟩, ?_⟩, ?_⟩, ?_⟩, ?_⟩ <;>
    (intro hc; subst hc; exact absurd h (by decide))

lemma digit_ne_dash {c : Char} (h : isDigitChar c = true) : c ≠ '-' := by
  unfold isDigitChar at h
  simp only [Bool.and_eq_true, decide_eq_true_eq] at h
  intro hc; subst hc; exact absurd h (by decide)

lemma digit_ne_plus {c : Char} (h : isDigitChar c = true) : c ≠ '+' := by
  unfold isDigitChar at h
  simp only [Bool.and_eq_true, decide_eq_true_eq] at h
  intro hc; subst hc; exact absurd h (by decide)

lemma takeWhile_all {p : Char → Bool} :
    ∀ cs : List Char, cs.all p = true → cs.takeWhile p = cs := by
  intro cs h
  induction cs with
  | nil => rfl
  | cons c rest ih =>
    simp only [List.all_cons, Bool.and_eq_true] at h
    simp [List.takeWhile_cons, h.1, ih h.2]

/-- `parseInt` on a nonempty all-digit string returns its decimal value. -/
lemma parseIntChars_digits (cs : List Char) (hne : cs ≠ [])
    (hd : cs.all isDigitChar = true) :
    parseIntChars cs = some ((digitsVal cs : Nat) : Int) := by
  cases cs with
  | nil => exact absurd rfl hne
  | cons c rest =>
    simp only [List.all_cons, Bool.and_eq_true] at hd
    unfold parseIntChars
    simp only [List.dropWhile_cons, digit_not_space hd.1, Bool.false_eq_true, if_false,
      List.headD_cons]
    have h1 : decide (c = '-') = false := decide_eq_false (digit_ne_dash hd.1)
    have h2 : decide (c = '+') = false := decide_eq_false (digit_ne_plus hd.1)
    simp only [h1, h2, Bool.or_self, Bool.false_eq_true, if_false]
    rw [takeWhile_all (c :: rest) (by simp [List.all_cons, hd.1, hd.2])]
    simp

lemma toUint32_some (n : Int) : toUint32 (some n) = (n % 4294967296).toNat := rfl

lemma jsAdd_some (a b : Int) : jsAdd (some a) (some b) = some (a + b) := rfl

lemma jsSub_some (a b : Int) : jsSub (some a) (some b) = some (a - b) := rfl

lemma toUint32_coe {a : Nat} (h : a < 4294967296) :
    toUint32 (some ((a : Nat) : Int)) = a := by
  rw [toUint32_some]; omega

lemma toUint32_natCast (v : Nat) (hv : v < 4294967296) :
    toUint32 (some ((v : Nat) : Int)) = v := by
  rw [toUint32_some]; omega

lemma jsShl_nat_eight (v : Nat) (hv : v < 4294967296) :
    jsShl (some ((v : Nat) : Int)) (some 8) = some (uint32ToInt32 (v * 256)) := by
  unfold jsShl
  rw [toUint32_natCast v hv]
  have h8 : toUint32 (some 8) % 32 = 8 := by decide
  rw [h8]
  norm_num

lemma uint32ToInt32_small {u : Nat} (h : u < 2147483648) :
    uint32ToInt32 u = ((u : Nat) : Int) := by
  unfold uint32ToInt32
  rw [if_pos (by omega), Nat.mod_eq_of_lt (by omega)]

lemma step0 (n : Int) : jsAdd (jsShl (some 0) (some 8)) (some n) = some n := by
  have h : jsShl (some 0) (some 8) = some 0 := by decide
  rw [h, jsAdd_some]
  norm_num

lemma stepMid (v n : Nat) (hv : v < 8388608) :
    jsAdd (jsShl (some ((v : Nat) : Int)) (some 8)) (some ((n : Nat) : Int)) =
      some (((v * 256 + n : Nat) : Nat) : Int) := by
  rw [jsShl_nat_eight v (by omega), uint32ToInt32_small (by omega), jsAdd_some]
  exact congrArg some (by push_cast; ring)

lemma stepLast (v n : Nat) (hv : v < 16777216) (hn : n ≤ 255) :
    jsUShr (jsAdd (jsShl (some ((v : Nat) : Int)) (some 8)) (some ((n : Nat) : Int)))
      (some 0) = (((v * 256 + n : Nat) : Nat) : Int) := by
  rw [jsShl_nat_eight v (by omega), jsAdd_some]
  unfold jsUShr
  have h0 : toUint32 (some 0) % 32 = 0 := by decide
  rw [h0, toUint32_some]
  simp only [pow_zero, Nat.div_one]
  unfold uint32ToInt32
  split
  · omega
  · omega

/-- On a syntactically valid dotted quad, the JavaScript `ipToNumber`
computes exactly the big-endian packing. -/
lemma ipToNumber_eq_pack (s : String) (h : validQuadChars s.data = true) :
    ipToNumber s = ((specPackQuad s : Nat) : Int) ∧ specPackQuad s < 4294967296 := by
  unfold validQuadChars at h
  unfold ipToNumber specPackQuad
  split at h
  case h_2 => exact absurd h (by simp)
  case h_1 a b c d heq =>
    rw [heq]
    simp only [Bool.and_eq_true] at h
    obtain ⟨⟨⟨ha, hb⟩, hc⟩, hd⟩ := h
    unfold isOctetStr at ha hb hc hd
    simp only [Bool.and_eq_true, Bool.not_eq_true', decide_eq_true_eq] at ha hb hc hd
    have pa := parseIntChars_digits a (by simpa using ha.1.1) ha.1.2
    have pb := parseIntChars_digits b (by simpa using hb.1.1) hb.1.2
    have pc := parseIntChars_digits c (by simpa using hc.1.1) hc.1.2
    have pd := parseIntChars_digits d (by simpa using hd.1.1) hd.1.2
    simp only [List.foldl_cons, List.foldl_nil, pa, pb, pc, pd]
    rw [step0, stepMid _ _ (by omega), stepMid _ _ (by omega), stepLast _ _ (by omega) hd.2]
    constructor
    · congr 1
    · have := ha.2; have := hb.2; have := hc.2; have := hd.2
      omega

/-- The JavaScript mask computation agrees with the specification mask for
prefix lengths between 1 and 32. -/
lemma mask_eq (p : Nat) (h1 : 1 ≤ p) (h2 : p ≤ 32) :
    jsUShr (jsShl (some 4294967295) (jsSub (some 32) (some ((p : Nat) : Int)))) (some 0) =
      ((specMask p : Nat) : Int) ∧ specMask p < 4294967296 := by
  have h1t : 1 ≤ 2 ^ (32 - p) := Nat.one_le_two_pow
  have h2t : 2 ^ (32 - p) ≤ 2147483648 := by
    calc 2 ^ (32 - p) ≤ 2 ^ 31 := Nat.pow_le_pow_right (by norm_num) (by omega)
    _ = 2147483648 := by norm_num
  have hmask : specMask p = 4294967296 - 2 ^ (32 - p) := by
    unfold specMask
    have hpow : 2 ^ p * 2 ^ (32 - p) = 4294967296 := by
      rw [← pow_add]
      have h32 : p + (32 - p) = 32 := by omega
      rw [h32]
      norm_num
    rw [Nat.sub_mul, one_mul, hpow]
  have hshl : jsShl (some 4294967295) (jsSub (some 32) (some ((p : Nat) : Int))) =
      some (uint32ToInt32 (4294967295 * 2 ^ (32 - p))) := by
    rw [jsSub_some]
    unfold jsShl
    have hq : toUint32 (some (32 - (p : Int))) % 32 = 32 - p := by
      rw [toUint32_some]; omega
    have hff : toUint32 (some 4294967295) = 4294967295 := by decide
    rw [hq, hff]
  refine ⟨?_, by omega⟩
  rw [hshl]
  unfold jsUShr
  have h0 : toUint32 (some 0) % 32 = 0 := by decide
  rw [h0, toUint32_some]
  simp only [pow_zero, Nat.div_one]
  unfold uint32ToInt32
  have hmod : 4294967295 * 2 ^ (32 - p) % 4294967296 = 4294967296 - 2 ^ (32 - p) := by
    omega
  simp only [hmod]
  rw [if_neg (by omega), hmask]
  omega

lemma uint32ToInt32_inj {x y : Nat} (hx : x < 4294967296) (hy : y < 4294967296) :
    uint32ToInt32 x = uint32ToInt32 y ↔ x = y := by
  unfold uint32ToInt32
  constructor
  · intro h
    split at h <;> split at h <;> omega
  · intro h; rw [h]

/-- On a valid target and a valid 1-to-32-prefix CIDR, `isIpInCidr` agrees
with the specification's masked comparison. -/
lemma isIpInCidr_eq_spec (t r : String) (ht : validQuadChars t.data = true)
    (hr : validCidrChars r.data = true) :
    isIpInCidr t r = specCidrMatch t r := by
  unfold validCidrChars at hr
  unfold isIpInCidr specCidrMatch
  split at hr
  case h_2 => exact absurd hr (by simp)
  case h_1 net ps heq =>
    rw [heq]
    simp only [Bool.and_eq_true, Bool.not_eq_true', decide_eq_true_eq] at hr
    obtain ⟨⟨⟨hnet, hps⟩, hp1⟩, hp2⟩ := hr
    have hpv := parseIntChars_digits ps (by simpa using hps.1) hps.2
    simp only [List.headD_cons, List.getElem?_cons_succ, List.getElem?_cons_zero, hpv]
    have hnet' : validQuadChars (String.mk net).data = true := hnet
    obtain ⟨hT, hTlt⟩ := ipToNumber_eq_pack t ht
    obtain ⟨hN, hNlt⟩ := ipToNumber_eq_pack ⟨net⟩ hnet'
    obtain ⟨hM, hMlt⟩ := mask_eq (digitsVal ps) hp1 hp2
    rw [hT, hN, hM]
    unfold jsAnd
    rw [toUint32_coe hTlt, toUint32_coe hNlt, toUint32_coe hMlt]
    have h32 : (2 : Nat) ^ 32 = 4294967296 := by norm_num
    have hmlt : specMask (digitsVal ps) < 2 ^ 32 := by rw [h32]; exact hMlt
    have hlt1 : Nat.land (specPackQuad t) (specMask (digitsVal ps)) < 4294967296 := by
      have hx := Nat.and_lt_two_pow (specPackQuad t) hmlt
      rw [h32] at hx
      exact hx
    have hlt2 : Nat.land (specPackQuad ⟨net⟩) (specMask (digitsVal ps)) < 4294967296 := by
      have hx := Nat.and_lt_two_pow (specPackQuad ⟨net⟩) hmlt
      rw [h32] at hx
      exact hx
    rw [Bool.eq_iff_iff]
    simp only [beq_iff_eq]
    exact uint32ToInt32_inj hlt1 hlt2

/-- C1: the specified behaviour — a `/0` range is the all-zero mask, so
`0.0.0.0/0` allows every syntactically valid address — fails in the code: the
JavaScript shift count `32 - 0` is taken mod 32, so the mask is all ones and
`10.0.1.5` is NOT allowed by `["0.0.0.0/0"]` (only addresses packing to 0 are). -/
theorem slashZero_rejects_valid_address :
    isTargetAllowed "10.0.1.5" ["0.0.0.0/0"] = false ∧
    isTargetAllowed "0.0.0.0" ["0.0.0.0/0"] = true := by
  constructor <;> decide

/-- C2: for a syntactically valid dotted-quad target and ranges that are valid
dotted-quad CIDRs with prefix length between 1 and 32, `isTargetAllowed` is
true iff some range satisfies the specification's masked comparison
`(targetInt & mask) == (networkInt & mask)` over big-endian-packed 32-bit
integers with a mask of `prefixLen` leading one-bits. -/
theorem isTargetAllowed_iff_spec (target : String) (ranges : List String)
    (ht : validQuadChars target.data = true)
    (hr : ∀ r ∈ ranges, validCidrChars r.data = true) :
    isTargetAllowed target ranges = true ↔
      ∃ r ∈ ranges, specCidrMatch target r = true := by
  unfold isTargetAllowed
  rw [List.any_eq_true]
  constructor
  · rintro ⟨r, hmem, hmatch⟩
    refine ⟨r, hmem, ?_⟩
    rw [← isIpInCidr_eq_spec target r ht (hr r hmem)]
    exact hmatch
  · rintro ⟨r, hmem, hmatch⟩
    refine ⟨r, hmem, ?_⟩
    rw [isIpInCidr_eq_spec target r ht (hr r hmem)]
    exact hmatch

/-- C2 witness: the specification's concrete examples, via the theorem. -/
theorem isTargetAllowed_iff_spec_witness :
    isTargetAllowed "10.0.1.5" ["10.0.1.0/24"] = true ∧
    isTargetAllowed "10.0.2.5" ["10.0.1.0/24"] = false := by
  constructor
  · exact (isTargetAllowed_iff_spec "10.0.1.5" ["10.0.1.0/24"] (by decide)
      (by decide)).mpr ⟨"10.0.1.0/24", by decide, by decide⟩
  · have h := isTargetAllowed_iff_spec "10.0.2.5" ["10.0.1.0/24"] (by decide) (by decide)
    have hno : ¬ ∃ r ∈ ["10.0.1.0/24"], specCidrMatch "10.0.2.5" r = true := by decide
    cases hb : isTargetAllowed "10.0.2.5" ["10.0.1.0/24"] with
    | false => rfl
    | true => exact absurd (h.mp hb) hno

/-- C8 (amended): `isTargetAllowed` is a total boolean function returning true
iff at least one supplied range matches under `isIpInCidr`; however an
unparsable range does not necessarily fail to match — the unparsable range
`"garbage"` matches the target `0.0.0.0` (both its `NaN`-derived network
number and the target pack to 0). -/
theorem isTargetAllowed_any_and_unparsable (target : String) (ranges : List String) :
    (isTargetAllowed target ranges = true ↔ ∃ r ∈ ranges, isIpInCidr target r = true) ∧
    isIpInCidr "0.0.0.0" "garbage" = true := by
  refine ⟨?_, by decide⟩
  unfold isTargetAllowed
  exact List.any_eq_true

/-- C8 counterexample: the claim says an unparsable range "simply fails to
match", yet the unparsable range `"garbage"` does match the syntactically
valid target `0.0.0.0`, so the whole check returns true. -/
theorem unparsable_range_matches :
    isTargetAllowed "0.0.0.0" ["garbage"] = true := by decide

/-! The configuration data model (`InstanceSchema`, `DisabledInstanceSchema`,
`LabConfigSchema` output types) and `selectCredentials`. -/

/-- A fully specified instance (the `InstanceSchema` output type).
Port numbers are modelled as integers. -/
structure Instance where
  public_ip : String
  private_ip : String
  ssh_key : String
  ssh_user : String
  instance_type : String
  enabled : Bool
  ports : Option (List (String × Int))
deriving DecidableEq, Repr

/-- One instance slot: the union `InstanceSchema | DisabledInstanceSchema`.
The disabled variant carries only `enabled: false`, hence no data. -/
inductive InstanceSlot where
  | inst (i : Instance)
  | disabled
deriving DecidableEq, Repr

/-- The three named instance slots of a lab configuration. -/
structure Instances where
  siem : InstanceSlot
  victim : InstanceSlot
  kali : InstanceSlot
deriving DecidableEq, Repr

/-- The `lab` metadata block. -/
structure LabMeta where
  name : String
  vpc_cidr : String
  project : Option String
  environment : Option String
deriving DecidableEq, Repr

/-- The `network` block (`NetworkSchema` output type). -/
structure Network where
  vpc_cidr : String
  subnet_cidr : String
  allowed_ip : String
deriving DecidableEq, Repr

/-- The `mcp` block (`MCPConfigSchema` output type). -/
structure MCPConfig where
  server_name : String
  allowed_targets : List String
  max_session_time : Int
  audit_enabled : Bool
  log_level : String
deriving DecidableEq, Repr

/-- The validated lab configuration (`LabConfigSchema` output type). -/
structure LabConfig where
  version : String
  generated : String
  lab : LabMeta
  instances : Instances
  network : Network
  mcp : MCPConfig
deriving DecidableEq, Repr

/-- The credential pair returned by `selectCredentials`. -/
structure Credentials where
  sshKey : String
  username : String
deriving DecidableEq, Repr

/-- One branch of the `selectCredentials` chain: the guard
`'ssh_key' in slot && (slot.public_ip === target || slot.private_ip === target)`
together with the returned `{sshKey: slot.ssh_key, username: slot.ssh_user}`.
Only the `Instance` variant has an `ssh_key` property. -/
def slotCreds? (slot : InstanceSlot) (target : String) : Option Credentials :=
  match slot with
  | .inst i =>
      if i.public_ip == target || i.private_ip == target then
        some ⟨i.ssh_key, i.ssh_user⟩
      else none
  | .disabled => none

/-- `selectCredentials` from `config.ts`: try `siem`, then `victim`, then
`kali`; otherwise fall back to kali's key with the caller-supplied default
username, throwing when the kali slot has no `ssh_key` property. -/
def selectCredentials (target : String) (config : LabConfig)
    (defaultUsername : String := "kali") : Except String Credentials :=
  match slotCreds? config.instances.siem target with
  | some c => .ok c
  | none =>
    match slotCreds? config.instances.victim target with
    | some c => .ok c
    | none =>
      match slotCreds? config.instances.kali target with
      | some c => .ok c
      | none =>
        match config.instances.kali with
        | .inst k => .ok ⟨k.ssh_key, defaultUsername⟩
        | .disabled => .error "Kali instance not available for SSH operations"

lemma slotCreds?_inst_match {i : Instance} {target : String}
    (hm : i.public_ip = target ∨ i.private_ip = target) :
    slotCreds? (.inst i) target = some ⟨i.ssh_key, i.ssh_user⟩ := by
  have hb : (i.public_ip == target || i.private_ip == target) = true := by
    cases hm with
    | inl h => simp [h]
    | inr h => simp [h]
  simp [slotCreds?, hb]

/-- C3: `selectCredentials` tests the target against the public and private
address of each slot in the fixed priority siem, victim, kali, first match
winning; only an `Instance`-variant slot can match, and a matching slot's own
`ssh_key` and configured `ssh_user` are returned. -/
theorem selectCredentials_priority (cfg : LabConfig) (target d : String) :
    (∀ i, cfg.instances.siem = .inst i →
      (i.public_ip = target ∨ i.private_ip = target) →
      selectCredentials target cfg d = .ok ⟨i.ssh_key, i.ssh_user⟩) ∧
    (∀ i, slotCreds? cfg.instances.siem target = none →
      cfg.instances.victim = .inst i →
      (i.public_ip = target ∨ i.private_ip = target) →
      selectCredentials target cfg d = .ok ⟨i.ssh_key, i.ssh_user⟩) ∧
    (∀ i, slotCreds? cfg.instances.siem target = none →
      slotCreds? cfg.instances.victim target = none →
      cfg.instances.kali = .inst i →
      (i.public_ip = target ∨ i.private_ip = target) →
      selectCredentials target cfg d = .ok ⟨i.ssh_key, i.ssh_user⟩) ∧
    (∀ slot c, slotCreds? slot target = some c →
      ∃ i, slot = .inst i ∧ (i.public_ip = target ∨ i.private_ip = target) ∧
        c = ⟨i.ssh_key, i.ssh_user⟩) := by
  refine ⟨?_, ?_, ?_, ?_⟩
  · intro i hs hm
    simp [selectCredentials, hs, slotCreds?_inst_match hm]
  · intro i h1 hv hm
    simp [selectCredentials, h1, hv, slotCreds?_inst_match hm]
  · intro i h1 h2 hk hm
    simp [selectCredentials, h1, h2, hk, slotCreds?_inst_match hm]
  · intro slot c h
    cases slot with
    | disabled => simp [slotCreds?] at h
    | inst i =>
      simp only [slotCreds?] at h
      split at h
      · rename_i hb
        have hm : i.public_ip = target ∨ i.private_ip = target := by simpa using hb
        exact ⟨i, rfl, hm, by injection h with h'; exact h'.symm⟩
      · exact absurd h (by simp)

/-- C4: when the target matches no `Instance`-variant slot, the fallback uses
kali's key with the caller-supplied default username, and fails with the
credential-unavailable error when the kali slot is disabled. -/
theorem selectCredentials_fallback (cfg : LabConfig) (target d : String)
    (h1 : slotCreds? cfg.instances.siem target = none)
    (h2 : slotCreds? cfg.instances.victim target = none)
    (h3 : slotCreds? cfg.instances.kali target = none) :
    (∀ k, cfg.instances.kali = .inst k →
      selectCredentials target cfg d = .ok ⟨k.ssh_key, d⟩) ∧
    (cfg.instances.kali = .disabled →
      selectCredentials target cfg d =
        .error "Kali instance not available for SSH operations") := by
  constructor
  · intro k hk
    rw [hk] at h3
    simp [selectCredentials, h1, h2, h3, hk]
  · intro hk
    rw [hk] at h3
    simp [selectCredentials, h1, h2, h3, hk]

/-- Concrete lab metadata shared by the witness configurations. -/
def labMeta0 : LabMeta := ⟨"aptl", "10.0.0.0/16", none, none⟩

/-- Concrete network block shared by the witness configurations. -/
def network0 : Network := ⟨"10.0.0.0/16", "10.0.1.0/24", "203.0.113.5/32"⟩

/-- Concrete MCP block shared by the witness configurations. -/
def mcp0 : MCPConfig := ⟨"kali-mcp", ["10.0.0.0/16"], 3600, true, "info"⟩

/-- A siem instance whose public address is `1.1.1.1`. -/
def siemInst0 : Instance :=
  ⟨"1.1.1.1", "10.0.1.10", "/keys/siem", "admin", "t3.large", true, none⟩

/-- A victim instance also carrying the stale address `1.1.1.1`. -/
def victimInst0 : Instance :=
  ⟨"1.1.1.1", "10.0.1.20", "/keys/victim", "ec2-user", "t3.micro", true, none⟩

/-- A kali instance also carrying the stale address `1.1.1.1` privately. -/
def kaliInst0 : Instance :=
  ⟨"3.3.3.3", "1.1.1.1", "/keys/kali", "kali-admin", "t3.medium", true, none⟩

/-- All three slots enabled; victim and kali also carry siem's address. -/
def cfg0 : LabConfig :=
  ⟨"1.0", "2024-01-01T00:00:00Z", labMeta0,
    ⟨.inst siemInst0, .inst victimInst0, .inst kaliInst0⟩, network0, mcp0⟩

/-- Like `cfg0` but with the kali slot disabled. -/
def cfg2 : LabConfig :=
  ⟨"1.0", "2024-01-01T00:00:00Z", labMeta0,
    ⟨.inst siemInst0, .inst victimInst0, .disabled⟩, network0, mcp0⟩

/-- C3 witness: with all three slots enabled and all carrying `1.1.1.1`,
siem's own key and user win. -/
theorem selectCredentials_priority_witness :
    selectCredentials "1.1.1.1" cfg0 "kali" = .ok ⟨"/keys/siem", "admin"⟩ :=
  (selectCredentials_priority cfg0 "1.1.1.1" "kali").1 siemInst0 rfl (Or.inl rfl)

/-- C4 witness: an unknown target falls back to kali's key paired with the
caller-supplied username, and errors when kali is disabled. -/
theorem selectCredentials_fallback_witness :
    selectCredentials "9.9.9.9" cfg0 "operator" = .ok ⟨"/keys/kali", "operator"⟩ ∧
    selectCredentials "9.9.9.9" cfg2 "kali" =
      .error "Kali instance not available for SSH operations" :=
  ⟨(selectCredentials_fallback cfg0 "9.9.9.9" "operator" (by decide) (by decide)
      (by decide)).1 kaliInst0 rfl,
   (selectCredentials_fallback cfg2 "9.9.9.9" "kali" (by decide) (by decide)
      (by decide)).2 rfl⟩

/-! The `z.string().ip()` validator used by `InstanceSchema`. With no version
option, zod 3 accepts a string matching either its IPv4 regex

  (25[0-5]|2[0-4][0-9]|1[0-9][0-9]|[1-9][0-9]|[0-9]) four times, dot-separated

or its IPv6 regex (an anchored alternation of h16/colon group patterns, a
link-local form, and two IPv4-embedded forms). The regexes are embedded as
backtracking recognizers over character lists: a matcher maps an input to the
list of possible remainders, and a string is accepted when some alternative
consumes it entirely. -/

/-- Match a single character satisfying a predicate. -/
def mChar (p : Char → Bool) : List Char → List (List Char)
  | [] => []
  | c :: cs => if p c then [cs] else []

/-- Match a literal string. -/
def mLit (s : String) (cs : List Char) : List (List Char) :=
  if s.data.isPrefixOf cs then [cs.drop s.data.length] else []

/-- Sequential composition of matchers. -/
def mSeq (m1 m2 : List Char → List (List Char)) (cs : List Char) : List (List Char) :=
  (m1 cs).flatMap m2

/-- Alternation of matchers. -/
def mAlt (m1 m2 : List Char → List (List Char)) (cs : List Char) : List (List Char) :=
  m1 cs ++ m2 cs

/-- Bounded repetition: between `mn` and `mx` copies of the matcher. -/
def mRep (m : List Char → List (List Char)) : Nat → Nat → List Char → List (List Char)
  | 0, 0, cs => [cs]
  | 0, mx + 1, cs => cs :: (m cs).flatMap (fun r => mRep m 0 mx r)
  | _ + 1, 0, _ => []
  | mn + 1, mx + 1, cs => (m cs).flatMap (fun r => mRep m mn mx r)

/-- Full-string acceptance: some branch consumes the entire input. -/
def mOK (m : List Char → List (List Char)) (s : String) : Bool :=
  (m s.data).any (fun r => r.isEmpty)

/-- Lowercase hex digit `[a-f0-9]`. -/
def isHexLower (c : Char) : Bool :=
  isDigitChar c || (97 ≤ c.toNat && c.toNat ≤ 102)

/-- Hex digit of either case `[0-9a-fA-F]`. -/
def isHexAny (c : Char) : Bool :=
  isHexLower c || (65 ≤ c.toNat && c.toNat ≤ 70)

/-- Alphanumeric `[0-9a-zA-Z]`. -/
def isAlnumChar (c : Char) : Bool :=
  isDigitChar c || (97 ≤ c.toNat && c.toNat ≤ 122) || (65 ≤ c.toNat && c.toNat ≤ 90)

/-- `[a-f0-9]{1,4}` (an h16 group). -/
def mH16 : List Char → List (List Char) := mRep (mChar isHexLower) 1 4

/-- `[a-f0-9]{1,4}:`. -/
def mH16Colon : List Char → List (List Char) := mSeq mH16 (mLit ":")

/-- `:[a-f0-9]{1,4}`. -/
def mColonH16 : List Char → List (List Char) := mSeq (mLit ":") mH16

/-- The IPv4 octet inside the IPv6 regex: `25[0-5]|(2[0-4]|1{0,1}[0-9]){0,1}[0-9]`. -/
def mEmbOctet : List Char → List (List Char) :=
  mAlt (mSeq (mLit "25") (mChar (fun c => 48 ≤ c.toNat && c.toNat ≤ 53)))
    (mSeq
      (mRep
        (mAlt (mSeq (mLit "2") (mChar (fun c => 48 ≤ c.toNat && c.toNat ≤ 52)))
          (mSeq (mRep (mLit "1") 0 1) (mChar isDigitChar)))
        0 1)
      (mChar isDigitChar))

/-- Dotted quad of embedded octets: `(octet\.){3}octet`. -/
def mEmbIpv4 : List Char → List (List Char) :=
  mSeq (mRep (mSeq mEmbOctet (mLit ".")) 3 3) mEmbOctet

/-- Link-local branch: `fe80:(:[a-f0-9]{0,4}){0,4}%[0-9a-zA-Z]{1}`. -/
def mFe80 : List Char → List (List Char) :=
  mSeq (mLit "fe80:")
    (mSeq (mRep (mSeq (mLit ":") (mRep (mChar isHexLower) 0 4)) 0 4)
      (mSeq (mLit "%") (mChar isAlnumChar)))

/-- IPv4-mapped branch: `::(ffff(:0{1,4}){0,1}:){0,1}(embedded ipv4)`. -/
def mV4Mapped : List Char → List (List Char) :=
  mSeq (mLit "::")
    (mSeq
      (mRep
        (mSeq (mLit "ffff")
          (mSeq (mRep (mSeq (mLit ":") (mRep (mLit "0") 1 4)) 0 1) (mLit ":")))
        0 1)
      mEmbIpv4)

/-- IPv4-compatible branch: `([0-9a-fA-F]{1,4}:){1,4}:(embedded ipv4)`. -/
def mV4Compat : List Char → List (List Char) :=
  mSeq (mRep (mSeq (mRep (mChar isHexAny) 1 4) (mLit ":")) 1 4)
    (mSeq (mLit ":") mEmbIpv4)

/-- The anchored alternation of the zod IPv6 regex, in source order. -/
def ipv6Matcher : List Char → List (List Char) :=
  mAlt (mSeq (mRep mH16Colon 7 7) mH16)
  (mAlt (mSeq (mRep mH16Colon 1 7) (mLit ":"))
  (mAlt (mSeq (mRep mH16Colon 1 6) mColonH16)
  (mAlt (mSeq (mRep mH16Colon 1 5) (mRep mColonH16 1 2))
  (mAlt (mSeq (mRep mH16Colon 1 4) (mRep mColonH16 1 3))
  (mAlt (mSeq (mRep mH16Colon 1 3) (mRep mColonH16 1 4))
  (mAlt (mSeq (mRep mH16Colon 1 2) (mRep mColonH16 1 5))
  (mAlt (mSeq mH16Colon (mRep mColonH16 1 6))
  (mAlt (mSeq (mLit ":") (mAlt (mRep mColonH16 1 7) (mLit ":")))
  (mAlt mFe80
  (mAlt mV4Mapped mV4Compat))))))))))

/-- zod's IPv6 acceptance. -/
def isZodIpv6 (s : String) : Bool := mOK ipv6Matcher s

/-- One octet of the zod IPv4 regex:
`25[0-5]|2[0-4][0-9]|1[0-9][0-9]|[1-9][0-9]|[0-9]` (no leading zeros),
with the alternatives tried in source order. -/
def isZodIpv4Octet (cs : List Char) : Bool :=
  match cs with
  | ['2', '5', c] => 48 ≤ c.toNat && c.toNat ≤ 53
  | ['2', c, d] => (48 ≤ c.toNat && c.toNat ≤ 52) && isDigitChar d
  | ['1', c, d] => isDigitChar c && isDigitChar d
  | [c, d] => (49 ≤ c.toNat && c.toNat ≤ 57) && isDigitChar d
  | [c] => isDigitChar c
  | _ => false

/-- zod's IPv4 acceptance: four octets separated by dots. -/
def isZodIpv4 (s : String) : Bool :=
  match splitChar s.data '.' with
  | [a, b, c, d] => isZodIpv4Octet a && isZodIpv4Octet b && isZodIpv4Octet c && isZodIpv4Octet d
  | _ => false

/-- `z.string().ip()` with no version option: IPv4 or IPv6. -/
def isZodIp (s : String) : Bool := isZodIpv4 s || isZodIpv6 s

/-! The zod validation pipeline (`LabConfigSchema.parse`). JSON values are
modelled structurally (numbers as integers: the schemas only inspect the type
tag of a number), zod object parsing looks up each declared key, collects the
issues of ALL fields (zod aggregates rather than failing on the first), and
strips undeclared keys; unions try their options in order and return the
first success. -/

/-- A decoded JSON value. Object fields keep their textual order; `getField`
returns the first binding of a key, as JavaScript object semantics make keys
unique in decoded JSON. -/
inductive Json where
  | null
  | boolean (b : Bool)
  | number (n : Int)
  | string (s : String)
  | array (xs : List Json)
  | object (fields : List (String × Json))

/-- One field-level violation: the path of keys from the root, and the zod
issue code. -/
structure ZodIssue where
  path : List String
  code : String
deriving DecidableEq, Repr

/-- Result of running a schema: the parsed value, or every collected issue. -/
abbrev ZodResult (α : Type) := Except (List ZodIssue) α

/-- Applicative combination that accumulates issues from both sides. -/
def zApp {α β : Type} : ZodResult (α → β) → ZodResult α → ZodResult β
  | .ok f, .ok a => .ok (f a)
  | .ok _, .error e => .error e
  | .error e, .ok _ => .error e
  | .error e1, .error e2 => .error (e1 ++ e2)

/-- Prefix a key onto the path of every issue. -/
def withPath {α : Type} (k : String) : ZodResult α → ZodResult α
  | .ok a => .ok a
  | .error es => .error (es.map (fun i => ⟨k :: i.path, i.code⟩))

/-- Look up a key in a decoded object. -/
def getField (fields : List (String × Json)) (k : String) : Option Json :=
  (fields.find? (fun p => p.1 == k)).map (fun p => p.2)

/-- A required field: missing yields an `invalid_type` (Required) issue. -/
def reqField {α : Type} (fields : List (String × Json)) (k : String)
    (p : Json → ZodResult α) : ZodResult α :=
  match getField fields k with
  | some v => withPath k (p v)
  | none => .error [⟨[k], "invalid_type"⟩]

/-- An `.optional()` field: missing is accepted as `none`. -/
def optField {α : Type} (fields : List (String × Json)) (k : String)
    (p : Json → ZodResult α) : ZodResult (Option α) :=
  match getField fields k with
  | some v => withPath k ((p v).map some)
  | none => .ok none

/-- An `.optional().default(d)` field: missing is accepted as the default. -/
def defField {α : Type} (fields : List (String × Json)) (k : String)
    (p : Json → ZodResult α) (d : α) : ZodResult α :=
  match getField fields k with
  | some v => withPath k (p v)
  | none => .ok d

/-- `z.string()`. -/
def parseStringJ : Json → ZodResult String
  | .string s => .ok s
  | _ => .error [⟨[], "invalid_type"⟩]

/-- `z.number()`. -/
def parseNumberJ : Json → ZodResult Int
  | .number n => .ok n
  | _ => .error [⟨[], "invalid_type"⟩]

/-- `z.boolean()`. -/
def parseBoolJ : Json → ZodResult Bool
  | .boolean b => .ok b
  | _ => .error [⟨[], "invalid_type"⟩]

/-- `z.string().ip()`. -/
def parseIpJ : Json → ZodResult String
  | .string s => if isZodIp s then .ok s else .error [⟨[], "invalid_string"⟩]
  | _ => .error [⟨[], "invalid_type"⟩]

/-- `z.record(z.number())`: every value of the object must be a number. -/
def parseRecordNum : Json → ZodResult (List (String × Int))
  | .object fs =>
      fs.foldr
        (fun kv acc =>
          zApp (zApp (.ok (fun v rest => (kv.1, v) :: rest))
            (withPath kv.1 (parseNumberJ kv.2))) acc)
        (.ok [])
  | _ => .error [⟨[], "invalid_type"⟩]

/-- `z.array(z.string())`, with element indices as path components. -/
def parseArrayString : Json → ZodResult (List String)
  | .array xs =>
      (xs.enum.foldr
        (fun xi acc =>
          zApp (zApp (.ok (fun v rest => v :: rest))
            (withPath (toString xi.1) (parseStringJ xi.2))) acc)
        (.ok []))
  | _ => .error [⟨[], "invalid_type"⟩]

/-- `InstanceSchema.parse`: five required fields (two of them IP-checked), an
`enabled` flag defaulting to true, and an optional `ports` record; unknown
keys are stripped. -/
def parseInstance : Json → ZodResult Instance
  | .object fs =>
      zApp (zApp (zApp (zApp (zApp (zApp (zApp (.ok Instance.mk)
        (reqField fs "public_ip" parseIpJ))
        (reqField fs "private_ip" parseIpJ))
        (reqField fs "ssh_key" parseStringJ))
        (reqField fs "ssh_user" parseStringJ))
        (reqField fs "instance_type" parseStringJ))
        (defField fs "enabled" parseBoolJ true))
        (optField fs "ports" parseRecordNum)
  | _ => .error [⟨[], "invalid_type"⟩]

/-- `DisabledInstanceSchema.parse`: requires `enabled: false` (a literal);
other keys are stripped. -/
def parseDisabled : Json → ZodResult Unit
  | .object fs =>
      match getField fs "enabled" with
      | some (.boolean false) => .ok ()
      | some _ => .error [⟨["enabled"], "invalid_literal"⟩]
      | none => .error [⟨["enabled"], "invalid_literal"⟩]
  | _ => .error [⟨[], "invalid_type"⟩]

/-- `z.union([InstanceSchema, DisabledInstanceSchema])`: options are tried in
order and the first success wins; when both fail zod reports one
`invalid_union` issue at the slot's path. -/
def parseSlot (j : Json) : ZodResult InstanceSlot :=
  match parseInstance j with
  | .ok i => .ok (.inst i)
  | .error _ =>
    match parseDisabled j with
    | .ok _ => .ok .disabled
    | .error _ => .error [⟨[], "invalid_union"⟩]

/-- The `lab` block schema. -/
def parseLabMeta : Json → ZodResult LabMeta
  | .object fs =>
      zApp (zApp (zApp (zApp (.ok LabMeta.mk)
        (reqField fs "name" parseStringJ))
        (reqField fs "vpc_cidr" parseStringJ))
        (optField fs "project" parseStringJ))
        (optField fs "environment" parseStringJ)
  | _ => .error [⟨[], "invalid_type"⟩]

/-- The `instances` block schema: three required union-typed slots. -/
def parseInstances : Json → ZodResult Instances
  | .object fs =>
      zApp (zApp (zApp (.ok Instances.mk)
        (reqField fs "siem" parseSlot))
        (reqField fs "victim" parseSlot))
        (reqField fs "kali" parseSlot)
  | _ => .error [⟨[], "invalid_type"⟩]

/-- `NetworkSchema.parse`. -/
def parseNetwork : Json → ZodResult Network
  | .object fs =>
      zApp (zApp (zApp (.ok Network.mk)
        (reqField fs "vpc_cidr" parseStringJ))
        (reqField fs "subnet_cidr" parseStringJ))
        (reqField fs "allowed_ip" parseStringJ)
  | _ => .error [⟨[], "invalid_type"⟩]

/-- `MCPConfigSchema.parse`. -/
def parseMCP : Json → ZodResult MCPConfig
  | .object fs =>
      zApp (zApp (zApp (zApp (zApp (.ok MCPConfig.mk)
        (reqField fs "server_name" parseStringJ))
        (reqField fs "allowed_targets" parseArrayString))
        (reqField fs "max_session_time" parseNumberJ))
        (reqField fs "audit_enabled" parseBoolJ))
        (reqField fs "log_level" parseStringJ)
  | _ => .error [⟨[], "invalid_type"⟩]

/-- `LabConfigSchema.parse`. -/
def parseLabConfig : Json → ZodResult LabConfig
  | .object fs =>
      zApp (zApp (zApp (zApp (zApp (zApp (.ok LabConfig.mk)
        (reqField fs "version" parseStringJ))
        (reqField fs "generated" parseStringJ))
        (reqField fs "lab" parseLabMeta))
        (reqField fs "instances" parseInstances))
        (reqField fs "network" parseNetwork))
        (reqField fs "mcp" parseMCP)
  | _ => .error [⟨[], "invalid_type"⟩]

/-! Inversion and propagation lemmas for the zod combinators. -/

lemma zApp_ok_inv {α β : Type} {x : ZodResult (α → β)} {y : ZodResult α} {b : β}
    (h : zApp x y = .ok b) : ∃ f a, x = .ok f ∧ y = .ok a ∧ f a = b := by
  cases x with
  | error e => cases y <;> simp [zApp] at h
  | ok f =>
    cases y with
    | error e => simp [zApp] at h
    | ok a =>
      refine ⟨f, a, rfl, rfl, ?_⟩
      simpa [zApp] using h

lemma zApp_error_left {α β : Type} {x : ZodResult (α → β)} (y : ZodResult α)
    {e : List ZodIssue} (hx : x = .error e) :
    ∃ tl, zApp x y = .error (e ++ tl) := by
  subst hx
  cases y with
  | ok a => exact ⟨[], by simp [zApp]⟩
  | error e2 => exact ⟨e2, by simp [zApp]⟩

lemma withPath_ok_inv {α : Type} {k : String} {r : ZodResult α} {a : α}
    (h : withPath k r = .ok a) : r = .ok a := by
  cases r with
  | ok a2 => simpa [withPath] using h
  | error e => simp [withPath] at h

lemma reqField_ok_inv {α : Type} {fs : List (String × Json)} {k : String}
    {p : Json → ZodResult α} {a : α} (h : reqField fs k p = .ok a) :
    ∃ v, getField fs k = some v ∧ p v = .ok a := by
  unfold reqField at h
  cases hg : getField fs k with
  | none => rw [hg] at h; exact absurd h (by simp)
  | some v => rw [hg] at h; exact ⟨v, rfl, withPath_ok_inv h⟩

lemma parseIpJ_ok_inv {v : Json} {s : String} (h : parseIpJ v = .ok s) :
    v = .string s ∧ isZodIp s = true := by
  cases v with
  | string s2 =>
    simp only [parseIpJ] at h
    split at h
    · rename_i hz
      injection h with h2
      subst h2
      exact ⟨rfl, hz⟩
    · exact absurd h (by simp)
  | null => simp [parseIpJ] at h
  | boolean b => simp [parseIpJ] at h
  | number n => simp [parseIpJ] at h
  | array xs => simp [parseIpJ] at h
  | object fs => simp [parseIpJ] at h

/-- C6: an instance object with all five required fields valid and `enabled`
omitted parses to the `Instance` variant with `enabled = true`; an object
carrying only `enabled: false` parses to the `DisabledInstance` variant; and
every accepted slot is exactly one of the two variants. -/
theorem parseSlot_variants (fs : List (String × Json)) (pub priv key user ty : String)
    (hpub : getField fs "public_ip" = some (.string pub)) (hip1 : isZodIp pub = true)
    (hpriv : getField fs "private_ip" = some (.string priv)) (hip2 : isZodIp priv = true)
    (hkey : getField fs "ssh_key" = some (.string key))
    (huser : getField fs "ssh_user" = some (.string user))
    (hty : getField fs "instance_type" = some (.string ty))
    (hen : getField fs "enabled" = none)
    (hports : getField fs "ports" = none) :
    parseSlot (.object fs) = .ok (.inst ⟨pub, priv, key, user, ty, true, none⟩) ∧
    parseSlot (.object [("enabled", .boolean false)]) = .ok .disabled ∧
    (∀ j s, parseSlot j = .ok s → ((∃ i, s = .inst i) ↔ s ≠ .disabled)) := by
  refine ⟨?_, by rfl, ?_⟩
  · have hinst : parseInstance (.object fs) = .ok ⟨pub, priv, key, user, ty, true, none⟩ := by
      simp only [parseInstance, reqField, defField, optField, hpub, hpriv, hkey, huser,
        hty, hen, hports, parseIpJ, parseStringJ, hip1, hip2, if_true, withPath, zApp]
    simp [parseSlot, hinst]
  · intro j s h
    cases s with
    | inst i => simp
    | disabled => simp

/-- C5 (amended): a slot accepted as the `Instance` variant always carries a
`public_ip` and `private_ip` accepted by `z.string().ip()` — which admits
IPv4 or IPv6, not IPv4 alone. -/
theorem instance_slot_ip_invariant (j : Json) (i : Instance)
    (h : parseSlot j = .ok (.inst i)) :
    isZodIp i.public_ip = true ∧ isZodIp i.private_ip = true := by
  unfold parseSlot at h
  cases hpi : parseInstance j with
  | error e =>
    rw [hpi] at h
    cases hpd : parseDisabled j with
    | ok u => rw [hpd] at h; simp at h
    | error e2 => rw [hpd] at h; simp at h
  | ok i2 =>
    rw [hpi] at h
    have hii : i2 = i := by
      injection h with h2
      injection h2 with h3
    subst hii
    cases j with
    | object fs =>
      simp only [parseInstance] at hpi
      obtain ⟨f6, a7, h6, hports, hb7⟩ := zApp_ok_inv hpi
      obtain ⟨f5, a6, h5, hen, hb6⟩ := zApp_ok_inv h6
      obtain ⟨f4, a5, h4, hty, hb5⟩ := zApp_ok_inv h5
      obtain ⟨f3, a4, h3, huser, hb4⟩ := zApp_ok_inv h4
      obtain ⟨f2, a3, h2, hkey, hb3⟩ := zApp_ok_inv h3
      obtain ⟨f1, a2, h1, hpriv, hb2⟩ := zApp_ok_inv h2
      obtain ⟨f0, a1, h0, hpub, hb1⟩ := zApp_ok_inv h1
      have hf0 : f0 = Instance.mk := by
        injection h0 with h9
        exact h9.symm
      subst hf0
      have hinst : i2 = Instance.mk a1 a2 a3 a4 a5 a6 a7 := by
        rw [← hb7, ← hb6, ← hb5, ← hb4, ← hb3, ← hb2, ← hb1]
      subst hinst
      obtain ⟨v1, hg1, hp1⟩ := reqField_ok_inv hpub
      obtain ⟨v2, hg2, hp2⟩ := reqField_ok_inv hpriv
      obtain ⟨hv1, hz1⟩ := parseIpJ_ok_inv hp1
      obtain ⟨hv2, hz2⟩ := parseIpJ_ok_inv hp2
      exact ⟨hz1, hz2⟩
    | null => simp [parseInstance] at hpi
    | boolean b => simp [parseInstance] at hpi
    | number n => simp [parseInstance] at hpi
    | string s => simp [parseInstance] at hpi
    | array xs => simp [parseInstance] at hpi

lemma getField_append_ne {fs : List (String × Json)} {k k2 : String} (v : Json)
    (h : k2 ≠ k) : getField (fs ++ [(k, v)]) k2 = getField fs k2 := by
  unfold getField
  rw [List.find?_append]
  cases hf : fs.find? (fun p => p.1 == k2) with
  | some p => rfl
  | none =>
    have hk : (k == k2) = false := by
      simp only [beq_eq_false_iff_ne, ne_eq]
      exact fun hx => h hx.symm
    simp [List.find?, hk]

/-- C7 (amended): a missing required field or a wrong primitive type is
rejected, and the validation error enumerates every field-level violation
(here: two independent top-level violations both appear in the issue list);
but an extra, undeclared top-level key is silently stripped rather than
rejected — appending one leaves the parse result unchanged. -/
theorem parse_missing_enumerated_extra_stripped (fs : List (String × Json)) :
    (getField fs "version" = none → getField fs "generated" = none →
      ∃ e, parseLabConfig (.object fs) = .error e ∧
        (⟨["version"], "invalid_type"⟩ : ZodIssue) ∈ e ∧
        (⟨["generated"], "invalid_type"⟩ : ZodIssue) ∈ e) ∧
    (∀ n : Int, getField fs "version" = some (.number n) →
      ∃ e, parseLabConfig (.object fs) = .error e ∧
        (⟨["version"], "invalid_type"⟩ : ZodIssue) ∈ e) ∧
    (∀ k v, k ∉ (["version", "generated", "lab", "instances", "network", "mcp"] :
        List String) →
      parseLabConfig (.object (fs ++ [(k, v)])) = parseLabConfig (.object fs)) := by
  refine ⟨?_, ?_, ?_⟩
  · intro hv hg
    have h1 : reqField fs "version" parseStringJ =
        .error [⟨["version"], "invalid_type"⟩] := by
      simp [reqField, hv]
    have h2 : reqField fs "generated" parseStringJ =
        .error [⟨["generated"], "invalid_type"⟩] := by
      simp [reqField, hg]
    have hin : zApp (zApp (.ok LabConfig.mk) (reqField fs "version" parseStringJ))
        (reqField fs "generated" parseStringJ) =
        .error ([⟨["version"], "invalid_type"⟩] ++ [⟨["generated"], "invalid_type"⟩]) := by
      rw [h1, h2]; rfl
    obtain ⟨t1, ht1⟩ := zApp_error_left (reqField fs "lab" parseLabMeta) hin
    obtain ⟨t2, ht2⟩ := zApp_error_left (reqField fs "instances" parseInstances) ht1
    obtain ⟨t3, ht3⟩ := zApp_error_left (reqField fs "network" parseNetwork) ht2
    obtain ⟨t4, ht4⟩ := zApp_error_left (reqField fs "mcp" parseMCP) ht3
    have hfinal : parseLabConfig (.object fs) =
        .error ([⟨["version"], "invalid_type"⟩] ++ [⟨["generated"], "invalid_type"⟩] ++
          t1 ++ t2 ++ t3 ++ t4) := by
      simp only [parseLabConfig]
      exact ht4
    exact ⟨_, hfinal, by simp, by simp⟩
  · intro n hv
    have h1 : reqField fs "version" parseStringJ =
        .error [⟨["version"], "invalid_type"⟩] := by
      simp [reqField, hv, parseStringJ, withPath]
    have hin : zApp (.ok LabConfig.mk) (reqField fs "version" parseStringJ) =
        .error [⟨["version"], "invalid_type"⟩] := by
      rw [h1]; rfl
    obtain ⟨t0, ht0⟩ := zApp_error_left (reqField fs "generated" parseStringJ) hin
    obtain ⟨t1, ht1⟩ := zApp_error_left (reqField fs "lab" parseLabMeta) ht0
    obtain ⟨t2, ht2⟩ := zApp_error_left (reqField fs "instances" parseInstances) ht1
    obtain ⟨t3, ht3⟩ := zApp_error_left (reqField fs "network" parseNetwork) ht2
    obtain ⟨t4, ht4⟩ := zApp_error_left (reqField fs "mcp" parseMCP) ht3
    have hfinal : parseLabConfig (.object fs) =
        .error ([⟨["version"], "invalid_type"⟩] ++ t0 ++ t1 ++ t2 ++ t3 ++ t4) := by
      simp only [parseLabConfig]
      exact ht4
    exact ⟨_, hfinal, by simp⟩
  · intro k v hk
    have hne : ∀ k2 : String,
        k2 ∈ (["version", "generated", "lab", "instances", "network", "mcp"] :
          List String) → getField (fs ++ [(k, v)]) k2 = getField fs k2 := by
      intro k2 hk2
      refine getField_append_ne v ?_
      intro hx
      rw [hx] at hk2
      exact hk hk2
    simp only [parseLabConfig, reqField,
      hne "version" (by simp), hne "generated" (by simp), hne "lab" (by simp),
      hne "instances" (by simp), hne "network" (by simp), hne "mcp" (by simp)]

/-- C10: slot participation in credential matching is gated on the presence of
the `ssh_key` field (the `Instance` variant), never on the `enabled` value: an
instance object carrying an explicit `enabled: false` with all required fields
still parses to the `Instance` variant (with `enabled = false`), and such a
slot still matches and returns its own credentials in `selectCredentials`. -/
theorem enabled_false_instance_still_matches (cfg : LabConfig) (target d : String) :
    (∀ fs pub priv key user ty,
      getField fs "public_ip" = some (.string pub) → isZodIp pub = true →
      getField fs "private_ip" = some (.string priv) → isZodIp priv = true →
      getField fs "ssh_key" = some (.string key) →
      getField fs "ssh_user" = some (.string user) →
      getField fs "instance_type" = some (.string ty) →
      getField fs "enabled" = some (.boolean false) →
      getField fs "ports" = none →
      parseSlot (.object fs) = .ok (.inst ⟨pub, priv, key, user, ty, false, none⟩)) ∧
    (∀ i, i.enabled = false → cfg.instances.siem = .inst i →
      (i.public_ip = target ∨ i.private_ip = target) →
      selectCredentials target cfg d = .ok ⟨i.ssh_key, i.ssh_user⟩) ∧
    (∀ i, i.enabled = false → slotCreds? cfg.instances.siem target = none →
      cfg.instances.victim = .inst i →
      (i.public_ip = target ∨ i.private_ip = target) →
      selectCredentials target cfg d = .ok ⟨i.ssh_key, i.ssh_user⟩) ∧
    (∀ i, i.enabled = false → slotCreds? cfg.instances.siem target = none →
      slotCreds? cfg.instances.victim target = none →
      cfg.instances.kali = .inst i →
      (i.public_ip = target ∨ i.private_ip = target) →
      selectCredentials target cfg d = .ok ⟨i.ssh_key, i.ssh_user⟩) := by
  refine ⟨?_, ?_, ?_, ?_⟩
  · intro fs pub priv key user ty hpub hip1 hpriv hip2 hkey huser hty hen hports
    have hinst : parseInstance (.object fs) = .ok ⟨pub, priv, key, user, ty, false, none⟩ := by
      simp only [parseInstance, reqField, defField, optField, hpub, hpriv, hkey, huser,
        hty, hen, hports, parseIpJ, parseStringJ, parseBoolJ, hip1, hip2, if_true,
        withPath, zApp]
    simp [parseSlot, hinst]
  · intro i _ hs hm
    simp [selectCredentials, hs, slotCreds?_inst_match hm]
  · intro i _ h1 hv hm
    simp [selectCredentials, h1, hv, slotCreds?_inst_match hm]
  · intro i _ h1 h2 hkali hm
    simp [selectCredentials, h1, h2, hkali, slotCreds?_inst_match hm]

/-! Concrete payloads for the validation counterexamples and witnesses. -/

/-- The fields of a well-formed instance object, `enabled` omitted. -/
def instFields (pub priv : String) : List (String × Json) :=
  [("public_ip", .string pub), ("private_ip", .string priv),
   ("ssh_key", .string "/keys/a"), ("ssh_user", .string "u"),
   ("instance_type", .string "t3.micro")]

/-- A well-formed instance object, `enabled` omitted. -/
def instJ (pub priv : String) : Json := .object (instFields pub priv)

/-- A well-formed `lab` block. -/
def labJ : Json :=
  .object [("name", .string "aptl"), ("vpc_cidr", .string "10.0.0.0/16")]

/-- A well-formed `network` block. -/
def netJ : Json :=
  .object [("vpc_cidr", .string "10.0.0.0/16"), ("subnet_cidr", .string "10.0.1.0/24"),
           ("allowed_ip", .string "203.0.113.5/32")]

/-- A well-formed `mcp` block. -/
def mcpJ : Json :=
  .object [("server_name", .string "kali-mcp"),
           ("allowed_targets", .array [.string "10.0.0.0/16"]),
           ("max_session_time", .number 3600),
           ("audit_enabled", .boolean true),
           ("log_level", .string "info")]

/-- The fields of a fully valid configuration payload. -/
def payloadFields : List (String × Json) :=
  [("version", .string "1.0"), ("generated", .string "2024-01-01T00:00:00Z"),
   ("lab", labJ),
   ("instances", .object [("siem", instJ "1.1.1.1" "10.0.1.10"),
                          ("victim", instJ "2.2.2.2" "10.0.1.20"),
                          ("kali", instJ "3.3.3.3" "10.0.1.30")]),
   ("network", netJ), ("mcp", mcpJ)]

/-- The typed configuration that `payloadFields` validates to. -/
def cfgFull : LabConfig :=
  ⟨"1.0", "2024-01-01T00:00:00Z", ⟨"aptl", "10.0.0.0/16", none, none⟩,
   ⟨.inst ⟨"1.1.1.1", "10.0.1.10", "/keys/a", "u", "t3.micro", true, none⟩,
    .inst ⟨"2.2.2.2", "10.0.1.20", "/keys/a", "u", "t3.micro", true, none⟩,
    .inst ⟨"3.3.3.3", "10.0.1.30", "/keys/a", "u", "t3.micro", true, none⟩⟩,
   ⟨"10.0.0.0/16", "10.0.1.0/24", "203.0.113.5/32"⟩,
   ⟨"kali-mcp", ["10.0.0.0/16"], 3600, true, "info"⟩⟩

/-- The valid payload with the siem public address replaced by an IPv6 one. -/
def payloadV6 : Json :=
  .object
    [("version", .string "1.0"), ("generated", .string "2024-01-01T00:00:00Z"),
     ("lab", labJ),
     ("instances", .object [("siem", instJ "::1" "10.0.1.10"),
                            ("victim", instJ "2.2.2.2" "10.0.1.20"),
                            ("kali", instJ "3.3.3.3" "10.0.1.30")]),
     ("network", netJ), ("mcp", mcpJ)]

/-- The typed configuration that `payloadV6` validates to. -/
def cfgV6 : LabConfig :=
  ⟨"1.0", "2024-01-01T00:00:00Z", ⟨"aptl", "10.0.0.0/16", none, none⟩,
   ⟨.inst ⟨"::1", "10.0.1.10", "/keys/a", "u", "t3.micro", true, none⟩,
    .inst ⟨"2.2.2.2", "10.0.1.20", "/keys/a", "u", "t3.micro", true, none⟩,
    .inst ⟨"3.3.3.3", "10.0.1.30", "/keys/a", "u", "t3.micro", true, none⟩⟩,
   ⟨"10.0.0.0/16", "10.0.1.0/24", "203.0.113.5/32"⟩,
   ⟨"kali-mcp", ["10.0.0.0/16"], 3600, true, "info"⟩⟩

/-- C5 counterexample: a payload whose siem slot carries the IPv6 (not
dotted-quad) public address `::1` is ACCEPTED by validation, not rejected:
zod's `.ip()` with no version option admits IPv6 as well. -/
theorem ipv6_address_accepted :
    parseLabConfig payloadV6 = .ok cfgV6 ∧ validQuadChars "::1".data = false :=
  ⟨by rfl, by decide⟩

/-- C5 witness: both addresses of a parsed `Instance` slot pass `.ip()`. -/
theorem instance_slot_ip_invariant_witness :
    isZodIp "::1" = true ∧ isZodIp "10.0.1.6" = true :=
  instance_slot_ip_invariant (instJ "::1" "10.0.1.6")
    ⟨"::1", "10.0.1.6", "/keys/a", "u", "t3.micro", true, none⟩ (by rfl)

/-- C6 witness: a concrete well-formed instance object with `enabled` omitted
parses to the `Instance` variant with `enabled = true`. -/
theorem parseSlot_variants_witness :
    parseSlot (instJ "10.0.1.5" "10.0.1.6") =
      .ok (.inst ⟨"10.0.1.5", "10.0.1.6", "/keys/a", "u", "t3.micro", true, none⟩) :=
  (parseSlot_variants (instFields "10.0.1.5" "10.0.1.6") "10.0.1.5" "10.0.1.6"
    "/keys/a" "u" "t3.micro" rfl (by decide) rfl (by decide) rfl rfl rfl rfl rfl).1

/-- C7 counterexample: a payload identical to a valid one except for an extra
undeclared top-level key `extra` is ACCEPTED (the key is stripped), not
rejected as the claim states. -/
theorem extra_key_accepted :
    parseLabConfig (.object (payloadFields ++ [("extra", .number 1)])) = .ok cfgFull :=
  by rfl

/-- C7 witness: missing `version` and `generated` are both enumerated in one
error, and appending an unknown key leaves the parse result unchanged. -/
theorem parse_missing_enumerated_extra_stripped_witness :
    (∃ e, parseLabConfig (.object [("lab", .number 0)]) = .error e ∧
      (⟨["version"], "invalid_type"⟩ : ZodIssue) ∈ e ∧
      (⟨["generated"], "invalid_type"⟩ : ZodIssue) ∈ e) ∧
    parseLabConfig (.object (payloadFields ++ [("unknown_key", .number 1)])) =
      parseLabConfig (.object payloadFields) :=
  ⟨(parse_missing_enumerated_extra_stripped [("lab", .number 0)]).1 rfl rfl,
   (parse_missing_enumerated_extra_stripped payloadFields).2.2 "unknown_key"
     (.number 1) (by decide)⟩

/-- A siem instance that parsed with an explicit `enabled: false`. -/
def siemInstOff : Instance :=
  ⟨"5.5.5.5", "10.0.1.50", "/keys/siem", "admin", "t3.large", false, none⟩

/-- Fields of a full instance object with an explicit `enabled: false`. -/
def instOffFields : List (String × Json) :=
  [("public_ip", .string "5.5.5.5"), ("private_ip", .string "10.0.1.50"),
   ("ssh_key", .string "/keys/siem"), ("ssh_user", .string "admin"),
   ("instance_type", .string "t3.large"), ("enabled", .boolean false)]

/-- A configuration whose siem slot is an `Instance` with `enabled = false`. -/
def cfgOff : LabConfig :=
  ⟨"1.0", "2024-01-01T00:00:00Z", labMeta0,
   ⟨.inst siemInstOff, .inst victimInst0, .inst kaliInst0⟩, network0, mcp0⟩

/-- C10 witness: the `enabled: false` instance object parses to the `Instance`
variant, and its slot still matches and returns its own credentials. -/
theorem enabled_false_instance_still_matches_witness :
    parseSlot (.object instOffFields) = .ok (.inst siemInstOff) ∧
    selectCredentials "5.5.5.5" cfgOff "kali" = .ok ⟨"/keys/siem", "admin"⟩ :=
  ⟨(enabled_false_instance_still_matches cfgOff "5.5.5.5" "kali").1 instOffFields
      "5.5.5.5" "10.0.1.50" "/keys/siem" "admin" "t3.large"
      rfl (by decide) rfl (by decide) rfl rfl rfl rfl rfl,
   (enabled_false_instance_still_matches cfgOff "5.5.5.5" "kali").2.1 siemInstOff
      rfl rfl (Or.inl rfl)⟩

/-! `findTerraformRoot`. The filesystem is a parameter `fsExists` (the
`existsSync` oracle) and `process.cwd()` is the `cwd` parameter; `resolve`
on an absolute normalized directory and a file name is string concatenation
with a separator, and `dirname` strips the last path segment. -/

/-- Node `path.resolve(dir, name)` for an absolute, normalized `dir`. -/
def joinPath (dir name : String) : String :=
  if dir = "/" then "/" ++ name else dir ++ "/" ++ name

/-- Node `path.dirname` for an absolute, normalized path. -/
def jsDirname (p : String) : String :=
  match (p.data.reverse).dropWhile (fun c => !(c == '/')) with
  | [] => "."
  | ['/'] => "/"
  | _ :: tail => ⟨tail.reverse⟩

/-- The ordered list of known workspace locations from `config.ts`. -/
def knownLocations : List String :=
  ["/home/atomik/src/aptl", "/home/atomik/src/aptl/infrastructure"]

/-- The known-location test from the fast-path loop: the location exists and
holds `main.tf` or `outputs.tf` at its top level. -/
def candidateOk (fsExists : String → Bool) (location : String) : Bool :=
  fsExists location &&
    (fsExists (joinPath location "main.tf") || fsExists (joinPath location "outputs.tf"))

/-- The bounded upward walk (`maxDepth = 10`): markers directly in the
directory, else inside its `infrastructure` subdirectory, else move to the
parent, stopping when the parent equals the directory. -/
def walkUp (fsExists : String → Bool) : Nat → String → Option String
  | 0, _ => none
  | fuel + 1, dir =>
    if fsExists (joinPath dir "main.tf") || fsExists (joinPath dir "outputs.tf") then
      some dir
    else if fsExists (joinPath (joinPath dir "infrastructure") "main.tf") ||
        fsExists (joinPath (joinPath dir "infrastructure") "outputs.tf") then
      some (joinPath dir "infrastructure")
    else
      let parent := jsDirname dir
      if parent = dir then none else walkUp fsExists fuel parent

/-- `findTerraformRoot` from `config.ts`: first qualifying known location,
else the upward walk from the working directory, else a discovery error. -/
def findTerraformRoot (fsExists : String → Bool) (cwd : String) : Except String String :=
  match knownLocations.find? (candidateOk fsExists) with
  | some location => .ok location
  | none =>
    match walkUp fsExists 10 cwd with
    | some dir => .ok dir
    | none => .error "Could not find Terraform root directory."

/-- A filesystem where the first known location exists but carries its marker
only inside its `infrastructure` subdirectory (prefix-closed, as on a real
disk). -/
def fsInfraOnly (p : String) : Bool :=
  (["/", "/home", "/home/atomik", "/home/atomik/src", "/home/atomik/src/aptl",
    "/home/atomik/src/aptl/infrastructure",
    "/home/atomik/src/aptl/infrastructure/main.tf", "/tmp"] : List String).contains p

/-- C9 counterexample: the first known candidate exists and contains `main.tf`
inside its `infrastructure` subdirectory, so per the claim it qualifies and is
returned — but the fast-path loop checks only top-level markers, skips it, and
returns the second candidate (the infrastructure path itself) instead. -/
theorem known_location_infra_marker_not_fast_path :
    fsInfraOnly "/home/atomik/src/aptl" = true ∧
    fsInfraOnly (joinPath (joinPath "/home/atomik/src/aptl" "infrastructure") "main.tf")
      = true ∧
    fsInfraOnly (joinPath "/home/atomik/src/aptl" "main.tf") = false ∧
    fsInfraOnly (joinPath "/home/atomik/src/aptl" "outputs.tf") = false ∧
    findTerraformRoot fsInfraOnly "/tmp" = .ok "/home/atomik/src/aptl/infrastructure" ∧
    "/home/atomik/src/aptl/infrastructure" ≠ "/home/atomik/src/aptl" := by
  refine ⟨rfl, rfl, rfl, rfl, rfl, by decide⟩

/-- C9 (amended): a known candidate qualifies for the fast path iff it exists
and holds one of the two marker files at its TOP level (the `infrastructure`
subdirectory of a candidate is not probed there — the second candidate entry
is itself the infrastructure path, and the upward walk handles the general
infrastructure layout); the first qualifying candidate is returned before any
upward walk. -/
theorem findTerraformRoot_fast_path (fsExists : String → Bool) (cwd : String) :
    (∀ loc, knownLocations.find? (candidateOk fsExists) = some loc →
      findTerraformRoot fsExists cwd = .ok loc) ∧
    (∀ loc, candidateOk fsExists loc = true ↔
      fsExists loc = true ∧
        (fsExists (joinPath loc "main.tf") = true ∨
         fsExists (joinPath loc "outputs.tf") = true)) := by
  constructor
  · intro loc h
    unfold findTerraformRoot
    rw [h]
  · intro loc
    unfold candidateOk
    simp [Bool.and_eq_true, Bool.or_eq_true]

/-- A filesystem where the first known location carries a top-level marker. -/
def fsTopMarker (p : String) : Bool :=
  (["/", "/home", "/home/atomik", "/home/atomik/src", "/home/atomik/src/aptl",
    "/home/atomik/src/aptl/main.tf", "/tmp"] : List String).contains p

/-- C9 witness: with a top-level marker at the first known location, the fast
path returns that location. -/
theorem findTerraformRoot_fast_path_witness :
    findTerraformRoot fsTopMarker "/tmp" = .ok "/home/atomik/src/aptl" :=
  (findTerraformRoot_fast_path fsTopMarker "/tmp").1 "/home/atomik/src/aptl" (by rfl)

end Aptl
